import Mathlib

/-!
# Verification of the Multimidia_Web slide renderer

Shallow embedding of the element-tree rendering engine of the repository
(`renderer.js` and `main.js`): the YouTube video-ID extractor and video
transport classification, the info-box anchor/clamp geometry, the element
dispatcher and the static builders (list, grid, ...), the one-shot video
activation listener, the shared YouTube IFrame API loader, and the slide
display entry point.  Machine numbers that the code treats as exact
(coordinates, indices) are embedded as `Int`/`Nat`; slider values and
durations as `ℚ`.  String processing is embedded on `List Char` with
structural recursion so that every definition evaluates inside the kernel.
-/

namespace MultimidiaWeb

/-! ## Character-list string utilities

Structural-recursion models of the JS string operations the renderer uses
(`split`, `slice`, `toLowerCase`, `trim`, the `$`-anchored extension
regex), evaluated on `String.data`. -/

/-- If `sep` is a prefix of `l`, return the remainder of `l`. -/
def dropPrefixChars : List Char → List Char → Option (List Char)
  | [], l => some l
  | _ :: _, [] => none
  | c :: cs, d :: ds => if c = d then dropPrefixChars cs ds else none

/-- Fuel-driven worker for `splitOnChars`; `fuel` bounds the number of
steps, one input character consumed per step at minimum. -/
def splitOnCharsGo (sep : List Char) : Nat → List Char → List Char → List (List Char)
  | 0, l, acc => [acc.reverse ++ l]
  | _ + 1, [], acc => [acc.reverse]
  | fuel + 1, c :: rest, acc =>
    match dropPrefixChars sep (c :: rest) with
    | some remaining => acc.reverse :: splitOnCharsGo sep fuel remaining []
    | none => splitOnCharsGo sep fuel rest (c :: acc)

/-- Split `l` on every occurrence of the nonempty separator `sep`; models
JS `String.prototype.split` with a string separator. -/
def splitOnChars (sep l : List Char) : List (List Char) :=
  splitOnCharsGo sep l.length l []

/-- Lowercase a character list; models `toLowerCase` on the ASCII range
this code exercises. -/
def lowerChars (l : List Char) : List Char := l.map Char.toLower

/-- Trim leading and trailing whitespace; models JS `trim`. -/
def trimChars (l : List Char) : List Char :=
  ((l.dropWhile Char.isWhitespace).reverse.dropWhile Char.isWhitespace).reverse

/-- Models JS `trim` on a `String`. -/
def jsTrim (s : String) : String := ⟨trimChars s.data⟩

/-! ## A model of the WHATWG URL constructor

The renderer calls the browser's `new URL(url)` builtin.  We model the
fragment of its behaviour exercised by this code: an absolute URL of shape
`scheme://host/path?query#fragment`.  Inputs without a valid scheme
followed by `://`, or with an empty host, make the constructor throw,
which we model as `none`. -/

/-- One parsed URL: the fields of the builtin `URL` object this code reads. -/
structure URLParts where
  hostname : String
  pathname : String
  search : String
deriving DecidableEq, Repr

/-- A character allowed after the first character of a URL scheme. -/
def isSchemeChar (c : Char) : Bool :=
  c.isAlphanum || c = '+' || c = '-' || c = '.'

/-- A valid URL scheme: a letter followed by letters, digits, `+`, `-`, `.`. -/
def validScheme : List Char → Bool
  | [] => false
  | c :: cs => c.isAlpha && cs.all isSchemeChar

/-- Modelled behaviour of the browser `new URL` constructor restricted to
absolute `scheme://host/path?query` forms; anything else is treated as
unparseable (the constructor throws, modelled as `none`). -/
def parseURL (url : String) : Option URLParts :=
  match splitOnChars "://".data url.data with
  | [] => none
  | [_] => none
  | scheme :: rest =>
    if validScheme scheme then
      let remainder := List.intercalate "://".data rest
      let hostname := remainder.takeWhile (fun c => c ≠ '/' && c ≠ '?' && c ≠ '#')
      if hostname = [] then none
      else
        let afterHost := remainder.drop hostname.length
        let rawPath := afterHost.takeWhile (fun c => c ≠ '?' && c ≠ '#')
        let pathname := if rawPath = [] then ['/'] else rawPath
        let afterPath := afterHost.drop rawPath.length
        let rawSearch := afterPath.takeWhile (fun c => c ≠ '#')
        let search := if rawSearch = ['?'] then [] else rawSearch
        some ⟨⟨lowerChars hostname⟩, ⟨pathname⟩, ⟨search⟩⟩
    else none

/-- Modelled `URLSearchParams.get`: first `key=value` pair of the query
string wins; a key present without `=` yields the empty string. -/
def searchParamsGet (search : String) (key : String) : Option String :=
  let query := match search.data with
    | '?' :: rest => rest
    | l => l
  if query = [] then none
  else
    ((splitOnChars ['&'] query).filterMap (fun p =>
      match splitOnChars ['='] p with
      | [] => none
      | k :: vs => if k = key.data then some (⟨List.intercalate ['='] vs⟩ : String)
                   else none)).head?

/-- `s` contains `pat` as a substring (for nonempty `pat`); models JS
`String.prototype.includes`. -/
def containsSubstr (s pat : String) : Bool :=
  (splitOnChars pat.data s.data).length > 1

/-! ## Video transport detection (`renderer.js`) -/

/-- Embeds `extrairVideoIDdoYouTube` (renderer.js).  JS `null`/`''`
intermediate values are collapsed into the empty string, and the final
`videoID || null` into `none`, which the function's own uses (`!videoID`
tests and the final coercion) cannot distinguish. -/
def extrairVideoIDdoYouTube (url : String) : Option String :=
  if url = "" then none
  else
    match parseURL url with
    | none => none
    | some urlObj =>
      let videoID : String :=
        if urlObj.hostname = "youtu.be" then
          ⟨urlObj.pathname.data.drop 1⟩
        else if containsSubstr urlObj.hostname "youtube.com" then
          let fromQuery := (searchParamsGet urlObj.search "v").getD ""
          if fromQuery = "" && containsSubstr urlObj.pathname "/embed/" then
            let seg := (splitOnChars "/embed/".data urlObj.pathname.data).getD 1 []
            ⟨seg.takeWhile (fun c => c ≠ '/' && c ≠ '?' && c ≠ '#')⟩
          else fromQuery
        else ""
      if videoID = "" then none else some videoID

/-- Embeds `isYouTubeUrl` (renderer.js). -/
def isYouTubeUrl (url : String) : Bool :=
  match parseURL url with
  | none => false
  | some u => containsSubstr u.hostname "youtube.com" || u.hostname = "youtu.be"

/-- Embeds `isDirectMediaUrl` (renderer.js): the regex
`\.(mp4|webm|ogv|ogg)$` tested case-insensitively. -/
def isDirectMediaUrl (url : String) : Bool :=
  let l := lowerChars url.data
  ".mp4".data.isSuffixOf l || ".webm".data.isSuffixOf l ||
    ".ogv".data.isSuffixOf l || ".ogg".data.isSuffixOf l

/-- The three branches of the `criarVideo` click handler. -/
inductive VideoActivation where
  /-- Branch 1: swap the placeholder for a native HTML5 `<video>` player. -/
  | directMedia
  /-- Branch 2: build the YouTube IFrame-API player for this video ID. -/
  | embeddedPlayer (videoID : String)
  /-- Branch 3: open the URL in a new browsing context. -/
  | fallbackOpen (url : String)
deriving DecidableEq, Repr

/-- Embeds the transport classification performed by the click handler
installed by `criarVideo` (renderer.js): direct media first, then YouTube
with an extractable ID, else the open-in-new-context fallback. -/
def criarVideoActivation (url : String) : VideoActivation :=
  let isYT := isYouTubeUrl url
  let videoID := if isYT then extrairVideoIDdoYouTube url else none
  if isDirectMediaUrl url then .directMedia
  else
    match videoID with
    | some id => if isYT then .embeddedPlayer id else .fallbackOpen url
    | none => .fallbackOpen url

/-! ## Info-box geometry (`criarGatilhoInfoBox`, renderer.js)

The positioning logic is embedded as a pure function of the geometric
inputs read at call time (container rect and client size, anchor rect,
trigger offset size, the element's `x`/`y` offsets after their `|| 0`
defaulting). -/

/-- A bounding-rect origin as read from `getBoundingClientRect`. -/
structure Rect where
  left : Int
  top : Int
deriving DecidableEq, Repr

/-- An already-rendered child of the slide container, as inspected by the
anchor scan: its class list, connectedness, and bounding rect. -/
structure ChildNode where
  classes : List String
  isConnected : Bool
  rect : Rect
deriving DecidableEq, Repr

/-- The unclamped left/top computed by `applyPosition`: the element's
offsets, shifted by the anchor's position relative to the container when
an anchor is in use and still connected. -/
def applyPositionBase (useContainerOnly : Bool) (anchorEl : Option ChildNode)
    (contRect : Rect) (x y : Int) : Int × Int :=
  match anchorEl with
  | some a =>
    if !useContainerOnly && a.isConnected then
      (a.rect.left - contRect.left + x, a.rect.top - contRect.top + y)
    else (x, y)
  | none => (x, y)

/-- Embeds `applyPosition` (renderer.js): base coordinates followed by the
clamp `left = max(0, min(left, clientWidth - offsetWidth))` and its `top`
counterpart. -/
def applyPosition (useContainerOnly : Bool) (anchorEl : Option ChildNode) (contRect : Rect)
    (x y clientWidth clientHeight offsetWidth offsetHeight : Int) : Int × Int :=
  let base := applyPositionBase useContainerOnly anchorEl contRect x y
  let maxLeft := clientWidth - offsetWidth
  let maxTop := clientHeight - offsetHeight
  (max 0 (min base.1 maxLeft), max 0 (min base.2 maxTop))

/-- Embeds the anchor scan of `criarGatilhoInfoBox`: walk the rendered
children backward and take the first one that is not itself an info-box
trigger. -/
def selectAnchor (children : List ChildNode) : Option ChildNode :=
  children.reverse.find? (fun el => !(el.classes.contains "infobox-trigger"))

/-- Embeds the position pipeline of `criarGatilhoInfoBox` for a given
anchor mode: anchor selection (only in `auto-prev` mode), the
`useContainerOnly` fallback decision, then `applyPosition`. -/
def infoBoxTriggerPosition (anchorMode : String) (children : List ChildNode) (contRect : Rect)
    (x y clientWidth clientHeight offsetWidth offsetHeight : Int) : Int × Int :=
  let anchorEl := if anchorMode = "auto-prev" then selectAnchor children else none
  let useContainerOnly := anchorMode = "container" || anchorEl.isNone
  applyPosition useContainerOnly anchorEl contRect x y
    clientWidth clientHeight offsetWidth offsetHeight

/-! ## One-shot video activation (`criarVideo`, renderer.js)

`criarVideo` installs its click handler with `{ once: true }`; per DOM
semantics a once-listener is removed when it is first invoked.  The state
records how many times the handler body (transport classification and
player construction) has run. -/

/-- Observable state of one video placeholder's activation listener. -/
structure VideoPlaceholderState where
  classificationsRun : Nat
  playersCreated : Nat
  listenerRegistered : Bool
deriving DecidableEq, Repr

/-- State right after `criarVideo` returns: handler registered, nothing
activated yet. -/
def initialVideoPlaceholder : VideoPlaceholderState :=
  { classificationsRun := 0, playersCreated := 0, listenerRegistered := true }

/-- Dispatching a click on the placeholder: if the once-listener is still
registered, the handler runs (classifying the transport and creating a
player in the direct-media and embedded branches) and the listener is
removed; otherwise nothing happens. -/
def clickVideoPlaceholder (url : String) (s : VideoPlaceholderState) : VideoPlaceholderState :=
  if s.listenerRegistered then
    { classificationsRun := s.classificationsRun + 1
      playersCreated := s.playersCreated +
        (match criarVideoActivation url with
         | .directMedia => 1
         | .embeddedPlayer _ => 1
         | .fallbackOpen _ => 0)
      listenerRegistered := false }
  else s

/-! ## Shared YouTube IFrame API loader (`ensureYouTubeAPI`, renderer.js) -/

/-- The global state `ensureYouTubeAPI` reads and writes: whether
`window.YT.Player` exists, whether `window._ytApiReadyPromise` has been
created, and how many API `<script>` tags have been appended. -/
structure YTAPIState where
  apiReady : Bool
  readyPromiseRegistered : Bool
  scriptLoads : Nat
deriving DecidableEq, Repr

/-- Page state before any activation: no API, no pending promise, no
script loads. -/
def initialYTAPIState : YTAPIState :=
  { apiReady := false, readyPromiseRegistered := false, scriptLoads := 0 }

/-- Embeds one (synchronous) call of `ensureYouTubeAPI`: an already-ready
API or an already-pending promise returns without loading; otherwise the
promise is registered and one script tag is appended. -/
def ensureYouTubeAPI (s : YTAPIState) : YTAPIState :=
  if s.apiReady then s
  else if s.readyPromiseRegistered then s
  else { s with readyPromiseRegistered := true, scriptLoads := s.scriptLoads + 1 }

/-- Page-lifetime events affecting the loader state: a call of
`ensureYouTubeAPI` (one per video activation that reaches the embedded
branch) and the API script finishing (`onYouTubeIframeAPIReady`). -/
inductive YTEvent where
  | ensure
  | apiBecameReady
deriving DecidableEq, Repr

/-- One event step on the loader state. -/
def stepYTAPI (s : YTAPIState) : YTEvent → YTAPIState
  | .ensure => ensureYouTubeAPI s
  | .apiBecameReady => { s with apiReady := true }

/-- Run a whole page lifetime of loader events from the initial state. -/
def runYTAPI (events : List YTEvent) : YTAPIState :=
  events.foldl stepYTAPI initialYTAPIState

/-! ## Embedded-player seek slider (`criarVideo` progress input handler) -/

/-- Embeds the `input` handler installed on the `.yt-progress` slider:
when the duration captured at player-ready is positive, seek to
`(value / 100) * duration`; otherwise no seek is issued. -/
def progressInputSeek (duration value : ℚ) : Option ℚ :=
  if duration > 0 then some (value / 100 * duration) else none

/-! ## Element objects and rendered nodes

The JSON element objects consumed by the dispatcher.  The scalar fields
live in `ElementData` (each `Option` distinguishes a missing/`undefined`
field); the recursive `elements` field of group/info-box objects is the
second argument of the `ElementObject` constructor. -/

/-- Scalar fields of one element object from `data.json`. -/
structure ElementData where
  type : Option String := none
  styleName : Option String := none
  text : Option String := none
  startIndex : Option Int := none
  source : Option String := none
  searchText : Option String := none
  title : Option String := none
  legend : Option String := none
  width : Option Int := none
  height : Option Int := none
  video : Option String := none
  previewImage : Option String := none
  content : List (List String) := []
  isFirstRowHeader : Bool := false
  alternateRowColor : Bool := false
  featureColumn : Option Int := none
  mode : Option String := none
  horizontalAlign : Option String := none
  verticalAlign : Option String := none
  fillHeight : Bool := false
  x : Option Int := none
  y : Option Int := none
  path : Option String := none
deriving DecidableEq, Repr

/-- One element object: its scalar fields plus the nested `elements`
sequence (used by `GroupElement`). -/
inductive ElementObject where
  | mk (data : ElementData) (elements : List ElementObject)

/-- The `type` discriminant of an element object. -/
def ElementObject.jsType : ElementObject → Option String
  | .mk data _ => data.type

/-- JS `a || b` on a possibly-missing string: `undefined` and `''` both
fall through to the default. -/
def jsOrString (v : Option String) (d : String) : String :=
  match v with
  | some s => if s = "" then d else s
  | none => d

/-- JS template interpolation `${v}` of a possibly-missing string:
`undefined` prints as `"undefined"`. -/
def templateString (v : Option String) : String := v.getD "undefined"

/-- JS truthiness of a string field as an `Option`: keeps only a present,
nonempty string. -/
def jsTruthy (v : Option String) : Option String :=
  match v with
  | some s => if s = "" then none else some s
  | none => none

/-- JS `replace` with a global pattern: replace every occurrence. -/
def jsReplace (s pat repl : String) : String :=
  ⟨List.intercalate repl.data (splitOnChars pat.data s.data)⟩

/-- One `<td>`/`<th>` of the grid table: its (trimmed) text and whether it
carries the `feature-column` class. -/
structure GridCell where
  text : String
  feature : Bool
deriving DecidableEq, Repr

/-- One `<tr>` of the grid table: whether it carries the `alternate-row`
class, and its cells. -/
structure GridRow where
  alternate : Bool
  cells : List GridCell
deriving DecidableEq, Repr

/-- The `<table>` built by `criarGrid`: optional single header row and the
body rows. -/
structure GridTable where
  header : Option GridRow
  body : List GridRow
deriving DecidableEq, Repr

/-- A rendered node: the observable shape of the HTML element each builder
returns. -/
inductive Node where
  /-- `criarTexto`: a `<p>` with a class and newline-to-`<br>` HTML. -/
  | paragraph (className : String) (innerHTML : String)
  /-- `criarLista`: `<ol>`/`<ul>`, class, optional `start`, item texts. -/
  | list (ordered : Bool) (className : String) (start : Option Int) (items : List String)
  /-- `criarImagem` on a `.swf` source: the Flash warning `<div>`. -/
  | flashWarning (text : String)
  /-- `criarImagem`: a `<figure>` with image, alt/title, sizes, legend. -/
  | figure (src : String) (alt : String) (titleAttr : String)
      (widthPx : Option Int) (heightPx : Option Int) (legend : Option String)
  /-- `criarVideo`: the lazy placeholder with preview and play overlay. -/
  | videoPlaceholder (url : String) (previewImage : Option String)
  /-- `criarGrid`: the table. -/
  | table (grid : GridTable)
  /-- `criarGrupo`: the flex container and its appended children. -/
  | group (flexDirection : String) (justifyContent : String) (alignItems : String)
      (flexGrow : Bool) (children : List Node)
  /-- `criarGatilhoInfoBox`: the trigger button (title attribute). -/
  | infoBoxTrigger (titleAttr : String)
  /-- `criarEspacador`: the sizing `<span>`. -/
  | spacer (widthPx heightPx : Int)
  /-- `criarAppLauncher`: the outbound activity link. -/
  | appLauncher (href : String) (text : String)

/-! ## Static builders (renderer.js) -/

/-- Embeds `criarTexto`. -/
def criarTexto (e : ElementData) : Node :=
  .paragraph ("text-element " ++ jsOrString e.styleName "paragraph")
    (jsReplace (jsOrString e.text "") "\n" "<br>")

/-- JS `element.startIndex > 1`: a missing field compares as `NaN > 1`,
which is false. -/
def startIndexGtOne (v : Option Int) : Bool :=
  match v with
  | some n => n > 1
  | none => false

/-- Embeds `criarLista`. -/
def criarLista (e : ElementData) : Node :=
  let isOrdered := e.styleName = some "numberList"
  let start := if isOrdered ∧ startIndexGtOne e.startIndex then e.startIndex else none
  let items := ((splitOnChars ['\n'] (jsOrString e.text "").data).map
      (fun l => (⟨l⟩ : String))).filter (fun item => jsTrim item ≠ "")
  .list isOrdered ("list-element " ++ templateString e.styleName) start items

/-- Embeds `criarImagem`. -/
def criarImagem (e : ElementData) : Node :=
  let isFlash :=
    match e.source with
    | some s => s ≠ "" && ".swf".data.isSuffixOf (lowerChars s.data)
    | none => false
  if isFlash then
    .flashWarning ("Conteúdo interativo obsoleto (Flash: " ++ templateString e.source ++ ").")
  else
    .figure ("assets/images/" ++ templateString e.source)
      (jsOrString e.searchText (jsOrString e.title "Imagem do curso"))
      (jsOrString e.title "")
      (match e.width with | some w => if w > 0 then some w else none | none => none)
      (match e.height with | some h => if h > 0 then some h else none | none => none)
      (jsTruthy e.legend)

/-- Embeds `criarVideo` (renderer.js): the returned node is the lazy
placeholder; its click behaviour is `criarVideoActivation` behind the
once-listener modelled by `clickVideoPlaceholder`. -/
def criarVideo (e : ElementData) : Node :=
  .videoPlaceholder (jsOrString e.video "") (jsTruthy e.previewImage)

/-- The cells of one grid row: trimmed text, `feature-column` class on the
column index strictly equal to `featureColumn`. -/
def gridCells (featureColumn : Option Int) (row : List String) : List GridCell :=
  row.enum.map (fun p => { text := jsTrim p.2, feature := featureColumn == some (p.1 : Int) })

/-- Embeds `criarGrid`. -/
def criarGrid (e : ElementData) : GridTable :=
  let content := e.content
  let header :=
    if e.isFirstRowHeader ∧ content.length > 0 then
      content.head?.map (fun row => { alternate := false, cells := gridCells e.featureColumn row })
    else none
  let startIndex := if e.isFirstRowHeader then 1 else 0
  let body := (content.drop startIndex).enum.map (fun p =>
    { alternate := e.alternateRowColor && p.1 % 2 != 0
      cells := gridCells e.featureColumn p.2 })
  ⟨header, body⟩

/-- Embeds the `hAlignMap` lookup with its `|| 'flex-start'` default. -/
def hAlignLookup (k : Option String) : String :=
  match k with
  | some "left" => "flex-start"
  | some "center" => "center"
  | some "right" => "flex-end"
  | _ => "flex-start"

/-- Embeds the `vAlignMap` lookup with its `|| 'flex-start'` default. -/
def vAlignLookup (k : Option String) : String :=
  match k with
  | some "top" => "flex-start"
  | some "middle" => "center"
  | some "bottom" => "flex-end"
  | _ => "flex-start"

/-- Embeds `criarGrupo` given its already-built (non-null) children. -/
def criarGrupo (e : ElementData) (children : List Node) : Node :=
  .group (if e.mode = some "horizontalGroup" then "row" else "column")
    (hAlignLookup e.horizontalAlign) (vAlignLookup e.verticalAlign) e.fillHeight children

/-- Embeds `criarGatilhoInfoBox`'s returned button; its geometry is
`infoBoxTriggerPosition`. -/
def criarGatilhoInfoBox (e : ElementData) : Node :=
  .infoBoxTrigger ("Info: " ++ templateString e.title)

/-- Embeds `criarEspacador` (`element.width || 0`, `element.height || 0`). -/
def criarEspacador (e : ElementData) : Node :=
  .spacer (e.width.getD 0) (e.height.getD 0)

/-- Embeds `criarAppLauncher`. -/
def criarAppLauncher (e : ElementData) : Node :=
  .appLauncher (templateString e.path) "Abrir Atividade Interativa"

/-! ## Element dispatcher (`criarElemento`, renderer.js)

The dispatcher is embedded with an explicit warning log: it returns the
built node (or `none`) paired with the `console.warn` messages emitted
during the call, so that the soft-failure contract is observable. -/

/-- The warning logged for a missing/invalid element object. -/
def warnInvalidElement : String :=
  "Tentativa de renderizar um objeto de elemento inválido:"

/-- The warning logged for an unsupported element type. -/
def warnUnknownType (t : String) : String :=
  "Tipo de elemento não suportado: " ++ t

mutual

/-- Embeds `criarElemento`: the guard on a missing (falsy) `type`, the
`switch` over the nine known variants, and the warn-and-skip default. -/
def criarElemento : ElementObject → Option Node × List String
  | .mk data elements =>
    match data.type with
    | none => (none, [warnInvalidElement])
    | some t =>
      if t = "" then (none, [warnInvalidElement])
      else if t = "TextElement" then (some (criarTexto data), [])
      else if t = "ListElement" then (some (criarLista data), [])
      else if t = "ImageElement" then (some (criarImagem data), [])
      else if t = "VideoElement" then (some (criarVideo data), [])
      else if t = "GridElement" then (some (.table (criarGrid data)), [])
      else if t = "GroupElement" then
        let r := criarElementos elements
        (some (criarGrupo data r.1), r.2)
      else if t = "InfoBoxElement" then (some (criarGatilhoInfoBox data), [])
      else if t = "SpacerElement" then (some (criarEspacador data), [])
      else if t = "AppLauncherElement" then (some (criarAppLauncher data), [])
      else (none, [warnUnknownType t])

/-- Embeds the render loops of `renderSlide` and `criarGrupo`: dispatch
each element in order and append only the non-null results, accumulating
warnings in order. -/
def criarElementos : List ElementObject → List Node × List String
  | [] => ([], [])
  | e :: es =>
    let r := criarElemento e
    let rs := criarElementos es
    (r.1.toList ++ rs.1, r.2 ++ rs.2)

end

/-- The `type` values `criarElemento`'s `switch` recognizes. -/
def knownElementTypes : List String :=
  ["TextElement", "ListElement", "ImageElement", "VideoElement", "GridElement",
   "GroupElement", "InfoBoxElement", "SpacerElement", "AppLauncherElement"]

/-- An element object whose discriminant is missing (JS-falsy) or matches
no known variant. -/
def elementTypeUnrecognized (e : ElementObject) : Bool :=
  match e.jsType with
  | none => true
  | some t => t = "" || !(knownElementTypes.contains t)

/-! ## Slide display (`exibirSlide`, main.js) -/

/-- One entry of the flattened slide list, as far as `exibirSlide`
observes it. -/
structure MainSlide where
  id : Int
deriving DecidableEq, Repr

/-- The application state `exibirSlide` mutates: current index, rendered
slide, navigation button disabled states, active menu marker, URL hash. -/
structure AppState where
  slideAtualIndex : Int
  renderedSlideId : Option Int
  btnAnteriorDisabled : Bool
  btnProximoDisabled : Bool
  activeMenuSlideId : Option Int
  locationHash : String
deriving DecidableEq, Repr

/-- Embeds `exibirSlide` (main.js): the out-of-range guard returns with no
mutation; otherwise the index, rendered slide, button disabled states,
menu highlight and hash are all set from the selected slide. -/
def exibirSlide (slidesAchatados : List MainSlide) (st : AppState) (index : Int) : AppState :=
  if index < 0 ∨ index ≥ (slidesAchatados.length : Int) then st
  else
    match slidesAchatados.get? index.toNat with
    | none => st
    | some slide =>
      { slideAtualIndex := index
        renderedSlideId := some slide.id
        btnAnteriorDisabled := index == 0
        btnProximoDisabled := index == (slidesAchatados.length : Int) - 1
        activeMenuSlideId := some slide.id
        locationHash := "#/slide/" ++ toString slide.id }

/-- The GridElement instance quoted by the specification's grid test. -/
def gridExampleInput : ElementData :=
  { type := some "GridElement", isFirstRowHeader := true, alternateRowColor := true,
    featureColumn := some 1, content := [["H1", "H2"], ["a", "b"], ["c", "d"]] }

/-! ## Shared helper lemmas -/

/-- Dispatching a list of elements distributes over append, both in the
appended nodes and in the warning log. -/
theorem criarElementos_append (as bs : List ElementObject) :
    criarElementos (as ++ bs) =
      ((criarElementos as).1 ++ (criarElementos bs).1,
       (criarElementos as).2 ++ (criarElementos bs).2) := by
  induction as with
  | nil => simp [criarElementos]
  | cons a as ih => simp [criarElementos, ih]

/-- An element object with a missing or unknown discriminant is dispatched
to no node and exactly one warning. -/
theorem criarElemento_unrecognized (e : ElementObject)
    (h : elementTypeUnrecognized e = true) :
    (criarElemento e).1 = none ∧ (criarElemento e).2.length = 1 := by
  obtain ⟨data, elements⟩ := e
  cases htype : data.type with
  | none => simp [criarElemento, htype]
  | some t =>
    simp [elementTypeUnrecognized, ElementObject.jsType, htype, knownElementTypes] at h
    by_cases h0 : t = ""
    · simp [criarElemento, htype, h0]
    · rcases h with h | h
      · exact absurd h h0
      · obtain ⟨h1, h2, h3, h4, h5, h6, h7, h8, h9⟩ := h
        simp [criarElemento, htype, h0, h1, h2, h3, h4, h5, h6, h7, h8, h9]

/-- A once-registered click handler that already fired leaves the
placeholder state unchanged. -/
theorem clickVideoPlaceholder_fixed (url : String) (s : VideoPlaceholderState)
    (h : s.listenerRegistered = false) : clickVideoPlaceholder url s = s := by
  simp [clickVideoPlaceholder, h]

/-- Invariant preservation for the loader: if the pending promise accounts
for every script load so far, it still does after any event sequence. -/
theorem runYTAPI_loads_aux (events : List YTEvent) (s : YTAPIState)
    (h1 : s.readyPromiseRegistered = false → s.scriptLoads = 0) (h2 : s.scriptLoads ≤ 1) :
    (events.foldl stepYTAPI s).scriptLoads ≤ 1 := by
  induction events generalizing s with
  | nil => simpa using h2
  | cons ev evs ih =>
    simp only [List.foldl_cons]
    cases ev with
    | apiBecameReady => exact ih _ h1 h2
    | ensure =>
      by_cases hr : s.apiReady
      · simpa [stepYTAPI, ensureYouTubeAPI, hr] using ih s h1 h2
      · by_cases hp : s.readyPromiseRegistered
        · simpa [stepYTAPI, ensureYouTubeAPI, hr, hp] using ih s h1 h2
        · have hz : s.scriptLoads = 0 := h1 (by simpa using hp)
          refine ih _ (fun hcontra => ?_) ?_ <;>
            simp [stepYTAPI, ensureYouTubeAPI, hr, hp, hz] at *

/-! ## Claim theorems -/

/-- C1 counterexample: the string `"video.mp4"` cannot be parsed as a URL
and the extractor returns no identifier, yet activation takes the
direct-media branch (a native player is built), not the
open-in-new-context fallback the claim asserts for every unparseable
string. -/
theorem C1_counterexample :
    parseURL "video.mp4" = none ∧
    extrairVideoIDdoYouTube "video.mp4" = none ∧
    criarVideoActivation "video.mp4" = VideoActivation.directMedia ∧
    criarVideoActivation "video.mp4" ≠ VideoActivation.fallbackOpen "video.mp4" :=
  ⟨by decide, by decide, by decide, by decide⟩

/-- C1 (amended): the extractor yields `"abc123"`, `"xyz789"` and
`"qwe456"` for the three quoted YouTube URL shapes; for any string the URL
constructor cannot parse it yields no identifier, and activation then
never builds an embedded player: it takes the open-in-new-context fallback
unless the string ends in a direct-media extension, in which case the
native-player branch is taken instead. -/
theorem C1_video_id_extraction :
    extrairVideoIDdoYouTube "https://youtu.be/abc123" = some "abc123" ∧
    extrairVideoIDdoYouTube "https://www.youtube.com/watch?v=xyz789" = some "xyz789" ∧
    extrairVideoIDdoYouTube "https://www.youtube.com/embed/qwe456" = some "qwe456" ∧
    (∀ url, parseURL url = none → extrairVideoIDdoYouTube url = none) ∧
    (∀ url, parseURL url = none → isDirectMediaUrl url = false →
      criarVideoActivation url = VideoActivation.fallbackOpen url) ∧
    (∀ url id, parseURL url = none →
      criarVideoActivation url ≠ VideoActivation.embeddedPlayer id) := by
  refine ⟨by decide, by decide, by decide, ?_, ?_, ?_⟩
  · intro url h
    simp [extrairVideoIDdoYouTube, h]
  · intro url h hd
    simp [criarVideoActivation, isYouTubeUrl, h, hd]
  · intro url id h
    rcases hD : isDirectMediaUrl url <;>
      simp [criarVideoActivation, isYouTubeUrl, h, hD]

/-- C1 witness: the amended theorem applied at the unparseable input
`"nota url"`. -/
theorem C1_video_id_extraction_witness :
    extrairVideoIDdoYouTube "nota url" = none ∧
    criarVideoActivation "nota url" = VideoActivation.fallbackOpen "nota url" :=
  ⟨C1_video_id_extraction.2.2.2.1 "nota url" (by decide),
   C1_video_id_extraction.2.2.2.2.1 "nota url" (by decide) (by decide)⟩

/-- C2 counterexample: with a 20-px trigger in a 10-px container the clamp
interval `[0, containerSize - triggerSize]` is empty, and the computed
left position `0` does not lie in it, contradicting the claim's
quantification over every container and trigger size. -/
theorem C2_counterexample :
    (applyPosition true none ⟨0, 0⟩ 5 5 10 10 20 20).1 = 0 ∧
    ¬ (applyPosition true none ⟨0, 0⟩ 5 5 10 10 20 20).1 ≤ 10 - 20 :=
  ⟨by decide, by decide⟩

/-- C2 (amended): whenever the trigger fits in the container on each axis
(`offsetWidth ≤ clientWidth`, `offsetHeight ≤ clientHeight`), the final
left/top computed by `applyPosition` lie in `[0, container - trigger]` on
their axes, for every anchor configuration and arbitrarily large positive
or negative offsets. -/
theorem C2_position_clamped (useContainerOnly : Bool) (anchorEl : Option ChildNode)
    (contRect : Rect) (x y clientWidth clientHeight offsetWidth offsetHeight : Int)
    (hw : offsetWidth ≤ clientWidth) (hh : offsetHeight ≤ clientHeight) :
    0 ≤ (applyPosition useContainerOnly anchorEl contRect x y
          clientWidth clientHeight offsetWidth offsetHeight).1 ∧
    (applyPosition useContainerOnly anchorEl contRect x y
          clientWidth clientHeight offsetWidth offsetHeight).1 ≤ clientWidth - offsetWidth ∧
    0 ≤ (applyPosition useContainerOnly anchorEl contRect x y
          clientWidth clientHeight offsetWidth offsetHeight).2 ∧
    (applyPosition useContainerOnly anchorEl contRect x y
          clientWidth clientHeight offsetWidth offsetHeight).2 ≤ clientHeight - offsetHeight := by
  cases hb : applyPositionBase useContainerOnly anchorEl contRect x y with
  | mk bl bt =>
    simp only [applyPosition, hb]
    refine ⟨?_, ?_, ?_, ?_⟩ <;> omega

/-- C2 witness: the amended theorem at a huge positive x offset and a huge
negative y offset. -/
theorem C2_position_clamped_witness :
    0 ≤ (applyPosition true none ⟨0, 0⟩ 100000 (-100000) 100 80 20 10).1 ∧
    (applyPosition true none ⟨0, 0⟩ 100000 (-100000) 100 80 20 10).1 ≤ 100 - 20 ∧
    0 ≤ (applyPosition true none ⟨0, 0⟩ 100000 (-100000) 100 80 20 10).2 ∧
    (applyPosition true none ⟨0, 0⟩ 100000 (-100000) 100 80 20 10).2 ≤ 80 - 10 :=
  C2_position_clamped true none ⟨0, 0⟩ 100000 (-100000) 100 80 20 10
    (by decide) (by decide)

/-- C3: for every element object whose `type` discriminant is missing or
matches no known variant, the dispatcher returns no node and logs exactly
one warning, and the rendering of all sibling elements still proceeds:
the nodes appended for any surrounding elements are exactly those of the
siblings, in order. -/
theorem C3_unknown_type_soft_failure (e : ElementObject)
    (h : elementTypeUnrecognized e = true) :
    (criarElemento e).1 = none ∧
    (criarElemento e).2.length = 1 ∧
    ∀ pre post, (criarElementos (pre ++ e :: post)).1 =
      (criarElementos pre).1 ++ (criarElementos post).1 := by
  refine ⟨(criarElemento_unrecognized e h).1, (criarElemento_unrecognized e h).2, ?_⟩
  intro pre post
  rw [criarElementos_append]
  simp [criarElementos, (criarElemento_unrecognized e h).1]

/-- C3 witness: a `"BlinkElement"` between a text element and a spacer is
skipped while both siblings render. -/
theorem C3_unknown_type_soft_failure_witness :
    (criarElemento (.mk { type := some "BlinkElement" } [])).1 = none ∧
    (criarElementos [.mk { type := some "TextElement", text := some "hello" } [],
                     .mk { type := some "BlinkElement" } [],
                     .mk { type := some "SpacerElement" } []]).1 =
      (criarElementos [.mk { type := some "TextElement", text := some "hello" } []]).1 ++
      (criarElementos [.mk { type := some "SpacerElement" } []]).1 :=
  ⟨(C3_unknown_type_soft_failure (.mk { type := some "BlinkElement" } []) (by decide)).1,
   (C3_unknown_type_soft_failure (.mk { type := some "BlinkElement" } []) (by decide)).2.2
      [.mk { type := some "TextElement", text := some "hello" } []]
      [.mk { type := some "SpacerElement" } []]⟩

/-- C4: for every video placeholder and any number `n ≥ 1` of click
dispatches (including programmatic ones), the activation handler runs
exactly once: the transport classification is performed once, at most one
player is created, and the once-listener is deregistered after the first
dispatch. -/
theorem C4_one_shot_activation (url : String) (n : Nat) (h : 1 ≤ n) :
    ((clickVideoPlaceholder url)^[n] initialVideoPlaceholder).classificationsRun = 1 ∧
    ((clickVideoPlaceholder url)^[n] initialVideoPlaceholder).playersCreated ≤ 1 ∧
    ((clickVideoPlaceholder url)^[n] initialVideoPlaceholder).listenerRegistered = false := by
  obtain ⟨m, rfl⟩ : ∃ m, n = m + 1 := ⟨n - 1, by omega⟩
  rw [Function.iterate_succ_apply]
  have hfix : clickVideoPlaceholder url (clickVideoPlaceholder url initialVideoPlaceholder) =
      clickVideoPlaceholder url initialVideoPlaceholder :=
    clickVideoPlaceholder_fixed url _ (by simp [clickVideoPlaceholder, initialVideoPlaceholder])
  rw [Function.iterate_fixed hfix]
  refine ⟨?_, ?_, ?_⟩ <;>
    rcases hA : criarVideoActivation url with _ | id | u <;>
      simp [clickVideoPlaceholder, initialVideoPlaceholder, hA]

/-- C4 witness: two clicks on a YouTube placeholder still classify once
and create at most one player. -/
theorem C4_one_shot_activation_witness :
    ((clickVideoPlaceholder "https://youtu.be/abc123")^[2] initialVideoPlaceholder).classificationsRun = 1 ∧
    ((clickVideoPlaceholder "https://youtu.be/abc123")^[2] initialVideoPlaceholder).playersCreated ≤ 1 ∧
    ((clickVideoPlaceholder "https://youtu.be/abc123")^[2] initialVideoPlaceholder).listenerRegistered = false :=
  C4_one_shot_activation "https://youtu.be/abc123" 2 (by decide)

/-- C5: in `auto-prev` mode, when the backward scan over the rendered
children (skipping info-box triggers) finds no anchor, the trigger's
position equals the `container`-mode position exactly, whose unclamped
coordinates are the explicit `(x, y)` offsets relative to the container's
top-left. -/
theorem C5_auto_prev_fallback (children : List ChildNode) (contRect : Rect)
    (x y clientWidth clientHeight offsetWidth offsetHeight : Int)
    (h : selectAnchor children = none) :
    infoBoxTriggerPosition "auto-prev" children contRect x y
        clientWidth clientHeight offsetWidth offsetHeight =
      infoBoxTriggerPosition "container" children contRect x y
        clientWidth clientHeight offsetWidth offsetHeight ∧
    applyPositionBase true none contRect x y = (x, y) := by
  constructor
  · simp [infoBoxTriggerPosition, h]
  · rfl

/-- C5 witness: an empty child list has no anchor, so the `auto-prev`
trigger position coincides with the `container`-mode one. -/
theorem C5_auto_prev_fallback_witness :
    infoBoxTriggerPosition "auto-prev" [] ⟨3, 4⟩ 7 9 200 100 16 16 =
      infoBoxTriggerPosition "container" [] ⟨3, 4⟩ 7 9 200 100 16 16 ∧
    applyPositionBase true none ⟨3, 4⟩ 7 9 = (7, 9) :=
  C5_auto_prev_fallback [] ⟨3, 4⟩ 7 9 200 100 16 16 (by decide)

/-- C6: across any page-lifetime sequence of loader events, the YouTube
IFrame API script is appended at most once, and a call of
`ensureYouTubeAPI` that finds the pending-load promise already registered
returns that shared continuation without changing any state. -/
theorem C6_api_loaded_once :
    (∀ events : List YTEvent, (runYTAPI events).scriptLoads ≤ 1) ∧
    (∀ s : YTAPIState, s.readyPromiseRegistered = true → ensureYouTubeAPI s = s) := by
  constructor
  · intro events
    exact runYTAPI_loads_aux events initialYTAPIState
      (by simp [initialYTAPIState]) (by simp [initialYTAPIState])
  · intro s h
    simp [ensureYouTubeAPI, h]

/-- C6 witness: three activations around the ready event still load the
script once, and a call under a registered promise is a no-op. -/
theorem C6_api_loaded_once_witness :
    (runYTAPI [YTEvent.ensure, YTEvent.ensure, YTEvent.apiBecameReady,
               YTEvent.ensure]).scriptLoads ≤ 1 ∧
    ensureYouTubeAPI ⟨false, true, 1⟩ = ⟨false, true, 1⟩ :=
  ⟨C6_api_loaded_once.1 [YTEvent.ensure, YTEvent.ensure, YTEvent.apiBecameReady, YTEvent.ensure],
   C6_api_loaded_once.2 ⟨false, true, 1⟩ rfl⟩

/-- C7: for the quoted GridElement the built table has a header row of
exactly the two cells of row 0, a body of exactly two rows with the texts
of rows 1 and 2, the alternate-row marker on body row index 1 only, and
the feature-column marker on column index 1 of every row including the
header. -/
theorem C7_grid_example :
    (criarGrid gridExampleInput).header.map (fun r => r.cells.map GridCell.text) =
        some ["H1", "H2"] ∧
    (criarGrid gridExampleInput).body.length = 2 ∧
    (criarGrid gridExampleInput).body.map (fun r => r.cells.map GridCell.text) =
        [["a", "b"], ["c", "d"]] ∧
    (criarGrid gridExampleInput).body.map GridRow.alternate = [false, true] ∧
    (criarGrid gridExampleInput).header.map (fun r => r.cells.map GridCell.feature) =
        some [false, true] ∧
    (criarGrid gridExampleInput).body.map (fun r => r.cells.map GridCell.feature) =
        [[false, true], [false, true]] := by
  decide

/-- C8: for the quoted ListElement the built list is ordered, drops the
empty line to keep exactly the three items `a`, `b`, `c`, and starts
numbering at 5. -/
theorem C8_list_example :
    criarLista { type := some "ListElement", styleName := some "numberList",
                 startIndex := some 5, text := some "a\nb\n\nc" } =
      Node.list true "list-element numberList" (some 5) ["a", "b", "c"] := rfl

/-- C9 counterexample: with the duration read at player-ready equal to 0,
a manual slider input of 50 issues no seek at all, while the claim asserts
a seek to `(50/100) * 0`. -/
theorem C9_counterexample :
    progressInputSeek 0 50 = none ∧
    progressInputSeek 0 50 ≠ some (50 / 100 * 0) := by
  constructor <;> simp [progressInputSeek]

/-- C9 (amended): for every manual input with slider value in `[0, 100]`,
if the duration read at player-ready is positive the player is seeked to
`(value/100) * duration`; if the duration is not positive, no seek is
issued. -/
theorem C9_seek_target (duration value : ℚ) (_h0 : 0 ≤ value) (_h100 : value ≤ 100) :
    (0 < duration → progressInputSeek duration value = some (value / 100 * duration)) ∧
    (duration ≤ 0 → progressInputSeek duration value = none) := by
  constructor
  · intro hd
    simp [progressInputSeek, hd]
  · intro hd
    simp [progressInputSeek, not_lt.2 hd]

/-- C9 witness: slider value 50 with duration 200 seeks to 100. -/
theorem C9_seek_target_witness :
    progressInputSeek 200 50 = some (50 / 100 * 200) :=
  (C9_seek_target 200 50 (by norm_num) (by norm_num)).1 (by norm_num)

/-- C10: invoking the slide-display operation with an index outside
`[0, number of flattened slides)` is a no-op: the current index, rendered
slide, button disabled states, active menu marker and URL hash are all
unchanged. -/
theorem C10_out_of_range_noop (slidesAchatados : List MainSlide) (st : AppState)
    (index : Int)
    (h : index < 0 ∨ index ≥ (slidesAchatados.length : Int)) :
    exibirSlide slidesAchatados st index = st := by
  simp only [exibirSlide]
  rw [if_pos h]

/-- C10 witness: displaying slide 2 of a one-slide course leaves the
state untouched. -/
theorem C10_out_of_range_noop_witness :
    exibirSlide [⟨10⟩] ⟨0, some 10, true, true, some 10, "#/slide/10"⟩ 2 =
      ⟨0, some 10, true, true, some 10, "#/slide/10"⟩ :=
  C10_out_of_range_noop [⟨10⟩] ⟨0, some 10, true, true, some 10, "#/slide/10"⟩ 2
    (by decide)

end MultimidiaWeb
